import Mathlib

/-!
Verification of the summarization request pipeline of `main.py`
(YouTube transcript → prompt → local model chat call).

The Python code is shallowly embedded: URL parsing works over lists of
characters with a faithful model of Python's `str.split` / `in` operators;
the external services (transcript provider, oEmbed title endpoint, model
chat endpoint) are modelled as explicit inputs describing their outcome,
and every `try/except` block of the source becomes a total function whose
error branches mirror the `except` handlers.
-/

namespace YTSumm

/-! ### Python string primitives

`main.py` uses `"pat" in s` and `s.split(pat)` with non-empty patterns.
`containsL` and `splitOnL` model those two operations over `List Char`
(Python's split on a non-empty separator: greedy leftmost non-overlapping
occurrences, always returning at least one chunk). -/

/-- Model of Python's `pat in s` substring test (for `pat` non-empty it is
`true` iff some occurrence of `pat` starts at some position of `s`). -/
def containsL (pat : List Char) : List Char → Bool
  | [] => pat.isEmpty
  | c :: s => List.isPrefixOf pat (c :: s) || containsL pat s

/-- Model of Python's `s.split(sep)` for a non-empty separator `sep`:
scan left to right, cutting at each leftmost occurrence of `sep`. -/
def splitOnL (sep : List Char) : List Char → List (List Char)
  | [] => [[]]
  | c :: s =>
    if List.isPrefixOf sep (c :: s) then
      [] :: splitOnL sep (List.drop (sep.length - 1) s)
    else
      match splitOnL sep s with
      | [] => [[c]]
      | t :: ts => (c :: t) :: ts
termination_by l => l.length
decreasing_by
  · simp only [List.length_drop, List.length_cons]
    omega
  · simp only [List.length_cons]
    omega

/-! ### URL Parser (`getVideoID`, main.py lines 26-39) -/

/-- Markers searched by `getVideoID` (main.py lines 34 and 36). -/
def ytShortMark : List Char := "youtu.be/".data

/-- The `v=` query-parameter marker (main.py line 36). -/
def vParamMark : List Char := "v=".data

/-- The query-string delimiter `?` (main.py line 35). -/
def qMark : List Char := "?".data

/-- The parameter delimiter `&` (main.py line 37). -/
def ampMark : List Char := "&".data

/-- Outcome of `getVideoID`: a returned value (possibly Python `None` for a
falsy URL) or the raised `ValueError("Invalid YouTube URL format")`. -/
inductive ParseOutcome where
  | ok (videoId : Option (List Char))
  | invalidURL
  deriving DecidableEq

/-- Embedding of `getVideoID` (main.py lines 26-39).  The input is `none`
for a missing (Python `None`) URL; `if not url` treats `None` and the
empty string alike.  Indexing `[1]` / `[0]` after a successful containment
test is total in Python (split on a contained separator yields at least
two chunks; split always yields at least one), so `getD` defaults are
never reached. -/
def getVideoID (url : Option (List Char)) : ParseOutcome :=
  match url with
  | none => .ok none
  | some u =>
    if u = [] then .ok none
    else if containsL ytShortMark u then
      .ok (some ((splitOnL qMark ((splitOnL ytShortMark u).getD 1 [])).getD 0 []))
    else if containsL vParamMark u then
      .ok (some ((splitOnL ampMark ((splitOnL vParamMark u).getD 1 [])).getD 0 []))
    else .invalidURL

/-! ### Transcript Fetcher (`get_transcription`, main.py lines 41-55) -/

/-- Embedding of `get_transcription` (main.py lines 41-55).  The external
provider call `YouTubeTranscriptApi.get_transcript` is modelled by the
input: `.error e` when it raises (message `e`), `.ok entries` with the
ordered list of the fragments' `text` fields otherwise.  The `except`
handler re-raises with the wrapping prefix of line 55. -/
def get_transcription (fetched : Except String (List String)) : Except String String :=
  match fetched with
  | .error e => .error ("Error getting transcript: " ++ e)
  | .ok transcript =>
      .ok (transcript.foldl (fun full_transcript entry => full_transcript ++ entry ++ "\n") "")

/-- The specification's description of the flattening: each fragment's
text followed by a single newline, in provider order. -/
def transcriptSpec : List String → String
  | [] => ""
  | t :: ts => t ++ "\n" ++ transcriptSpec ts

/-! ### Title Resolver (`get_video_title`, main.py lines 57-69) -/

/-- Outcome of `response.json()['title']` on a received HTTP response:
`.malformed` when `.json()` raises, `.missingTitle` when the parsed body
has no `title` key (a `KeyError`), `.withTitle t` otherwise. -/
inductive TitleBody where
  | malformed
  | missingTitle
  | withTitle (title : String)
  deriving DecidableEq

/-- Outcome of the `requests.get` call in `get_video_title`: a raised
network error, or a response with a status code and a body. -/
inductive TitleHttp where
  | netError (e : String)
  | response (status : Nat) (body : TitleBody)
  deriving DecidableEq

/-- Result of `get_video_title`: the returned string together with whether
the non-blocking `st.warning` of line 68 was emitted.  The function has no
error case because the `try/except` of lines 62-68 catches every
exception. -/
structure TitleResult where
  title : String
  warned : Bool
  deriving DecidableEq

/-- Embedding of `get_video_title` (main.py lines 57-69).  `.json()` and
the `['title']` lookup are only evaluated inside the `status_code == 200`
branch; any exception there is caught by line 67 (warning, then fall
through to `return video_id`); a non-200 response skips the `if` body and
falls through silently. -/
def get_video_title (video_id : String) : TitleHttp → TitleResult
  | .netError _ => ⟨video_id, true⟩
  | .response status body =>
    if status = 200 then
      match body with
      | .withTitle t => ⟨t, false⟩
      | .malformed => ⟨video_id, true⟩
      | .missingTitle => ⟨video_id, true⟩
    else ⟨video_id, false⟩

/-! ### Prompt Builder (main.py lines 93 and 121-132) -/

/-- Embedding of `create_default_prompt` (main.py lines 121-132), the
fixed template instantiated with the selected tone clause. -/
def create_default_prompt (selected_tone : String) : String :=
  "You are a summarizing assistant responsible for analyzing the content of YouTube videos. "
    ++ selected_tone ++ " "
    ++ "The user will feed you transcriptions but you should always refer to the content in your response as \"the video\". "
    ++ "Focus on accurately summarizing the main points and key details of the videos. "
    ++ "Do not comment on the style of the video (e.g., whether it is a voiceover or conversational). "
    ++ "Do never mention or imply the existence of text, transcription, or any written format. "
    ++ "Use phrases like \"The video discusses...\" or \"According to the video...\". "
    ++ "Strive to be the best summarizer possible, providing clear, and informative summaries that exclusively reference the video content."

/-- Embedding of main.py line 93,
`system_prompt = custom_prompt if custom_prompt else create_default_prompt(selected_tone)`:
a Python truthiness test, so both `None` and the empty string fall back to
the default prompt. -/
def build_system_prompt (selected_tone : String) (custom_prompt : Option String) : String :=
  match custom_prompt with
  | some cp => if cp = "" then create_default_prompt selected_tone else cp
  | none => create_default_prompt selected_tone

/-! ### Summarizer Client (`askOllama`, main.py lines 78-119) -/

/-- One `{role, content}` message of the chat request (main.py lines 99-106). -/
structure ChatMessage where
  role : String
  content : String
  deriving DecidableEq

/-- Value returned by `AI.chat` when it does not raise: Python `None` and
the empty dict are falsy; a dict may or may not carry a `message` key, and
a present `message` may or may not carry a `content` field. -/
inductive RespVal where
  | null
  | emptyDict
  | noMessage
  | withMessage (content : Option String)
  deriving DecidableEq

/-- Python truthiness of the `AI.chat` return value (`if not response`). -/
def respTruthy : RespVal → Bool
  | .null => false
  | .emptyDict => false
  | .noMessage => true
  | .withMessage _ => true

/-- Result of `askOllama`: the returned response on success, or (after the
`except` handler of lines 116-119 logged and displayed
`st.error("Error generating summary: ...")`) the Python `None` return,
carried here with the displayed error text. -/
inductive AskResult where
  | success (resp : RespVal)
  | failure (shown : String)
  deriving DecidableEq

/-- Embedding of `askOllama` (main.py lines 78-119).  The endpoint is the
input `chat`, mapping a model name and message list to either a raised
transport error or a returned value.  A falsy returned value triggers
`raise Exception("Empty response from AI model")` (line 111), which the
same `except` block catches. -/
def askOllama (transcript usrModel selected_tone : String)
    (custom_prompt : Option String)
    (chat : String → List ChatMessage → Except String RespVal) : AskResult :=
  let system_prompt := build_system_prompt selected_tone custom_prompt
  match chat usrModel
      [{ role := "system", content := system_prompt },
       { role := "user", content := "Transcript: " ++ transcript }] with
  | .error e => .failure ("Error generating summary: " ++ e)
  | .ok response =>
    if respTruthy response then
      .success response
    else
      .failure ("Error generating summary: " ++ "Empty response from AI model")

/-- Embedding of the summary stage of `main` (main.py lines 257-266):
`if transcript:` guards the `askOllama` call with a Python truthiness test
on the transcript string, so the summarizer is invoked (result `some ...`)
exactly when the transcript is non-empty, and skipped (`none`) otherwise. -/
def main_summary_stage (transcript selected_model selected_tone : String)
    (custom_prompt : Option String)
    (chat : String → List ChatMessage → Except String RespVal) : Option AskResult :=
  if transcript = "" then none
  else some (askOllama transcript selected_model selected_tone custom_prompt chat)

/-! ### Facts about the split primitives -/

/-- Unfolding equation of `splitOnL` on a non-empty input. -/
theorem splitOnL_cons (sep : List Char) (c : Char) (s : List Char) :
    splitOnL sep (c :: s) =
      if List.isPrefixOf sep (c :: s) then
        [] :: splitOnL sep (List.drop (sep.length - 1) s)
      else
        match splitOnL sep s with
        | [] => [[c]]
        | t :: ts => (c :: t) :: ts := by
  rw [splitOnL]

/-- A list is a `isPrefixOf`-prefix of itself followed by anything. -/
theorem isPrefixOf_append_self (l t : List Char) : List.isPrefixOf l (l ++ t) = true := by
  induction l with
  | nil => simp
  | cons c cs ih => simp [List.isPrefixOf, ih]

/-- Splitting a string that starts with the separator cuts an empty chunk
and continues after the separator. -/
theorem splitOnL_sep_start (sep r : List Char) (hsep : sep ≠ []) :
    splitOnL sep (sep ++ r) = [] :: splitOnL sep r := by
  cases sep with
  | nil => exact absurd rfl hsep
  | cons d ds =>
    rw [List.cons_append, splitOnL_cons]
    have hpre : List.isPrefixOf (d :: ds) (d :: (ds ++ r)) = true := by
      simp [isPrefixOf_append_self, List.isPrefixOf]
    have hdrop : List.drop ((d :: ds).length - 1) (ds ++ r) = r := by
      simp [List.drop_left ds r]
    rw [hpre, hdrop]
    simp

/-- Splitting `p ++ sep ++ r` when no occurrence of `sep` starts inside
`p`: the first chunk is `p` and splitting continues on `r`. -/
theorem splitOnL_boundary (sep p r : List Char) (hsep : sep ≠ [])
    (h : ∀ i, i < p.length → List.isPrefixOf sep (List.drop i (p ++ (sep ++ r))) = false) :
    splitOnL sep (p ++ (sep ++ r)) = p :: splitOnL sep r := by
  induction p with
  | nil => simpa using splitOnL_sep_start sep r hsep
  | cons c p ih =>
    have h0 : List.isPrefixOf sep (c :: (p ++ (sep ++ r))) = false := by
      simpa using h 0 (by simp)
    have h' : ∀ i, i < p.length →
        List.isPrefixOf sep (List.drop i (p ++ (sep ++ r))) = false := by
      intro i hi
      have := h (i + 1) (by simp; omega)
      simpa [List.drop_succ_cons] using this
    rw [List.cons_append, splitOnL_cons, h0]
    rw [ih h']
    simp

/-- Splitting a string in which the separator never occurs yields the
whole string as the single chunk. -/
theorem splitOnL_no_occ (sep s : List Char)
    (h : ∀ i, i < s.length → List.isPrefixOf sep (List.drop i s) = false) :
    splitOnL sep s = [s] := by
  induction s with
  | nil => rw [splitOnL]
  | cons c s ih =>
    have h0 : List.isPrefixOf sep (c :: s) = false := by
      simpa using h 0 (by simp)
    have h' : ∀ i, i < s.length → List.isPrefixOf sep (List.drop i s) = false := by
      intro i hi
      have := h (i + 1) (by simp; omega)
      simpa [List.drop_succ_cons] using this
    rw [splitOnL_cons, h0, ih h']
    simp

/-- A string of the shape `x ++ sep ++ y` contains `sep`. -/
theorem containsL_of_append (sep x y : List Char) (hsep : sep ≠ []) :
    containsL sep (x ++ (sep ++ y)) = true := by
  induction x with
  | nil =>
    cases sep with
    | nil => exact absurd rfl hsep
    | cons d ds =>
      rw [List.nil_append, List.cons_append, containsL]
      have : List.isPrefixOf (d :: ds) (d :: (ds ++ y)) = true := by
        simp [isPrefixOf_append_self, List.isPrefixOf]
      rw [this]
      simp
  | cons c x ih =>
    rw [List.cons_append, containsL, ih]
    simp

/-- A single character `c` with `c ∉ l` starts no occurrence of `[c]`
within the `l` part of `l ++ rest`. -/
theorem singleton_no_occ_within (c : Char) (l rest : List Char) (hc : c ∉ l) :
    ∀ i, i < l.length → List.isPrefixOf [c] (List.drop i (l ++ rest)) = false := by
  induction l with
  | nil => intro i hi; simp at hi
  | cons a l ih =>
    intro i hi
    cases i with
    | zero =>
      have hca : c ≠ a := fun hEq => hc (hEq ▸ List.mem_cons_self a l)
      simp [List.isPrefixOf, hca]
    | succ j =>
      have hj : j < l.length := by
        simp only [List.length_cons] at hi
        omega
      have hm : c ∉ l := fun hmem => hc (List.mem_cons_of_mem a hmem)
      have := ih hm j hj
      simpa [List.drop_succ_cons] using this

/-! ### Claims about the URL parser -/

/-- Claim C5: for every URL string containing the short-link marker
`youtu.be/` followed by an identifier and an optional query string, parse
returns exactly the path segment immediately following the marker,
truncated at the first `?` delimiter.  The URL is `p ++ marker ++ id ++ q`
where the shown marker occurrence is the first (`hfirst`) and the marker
does not reoccur after it (`hnore`), the identifier contains no `?`, and
`q` is either absent or a query string starting with `?`. -/
theorem getVideoID_short_link (p id q : List Char)
    (hfirst : ∀ i, i < p.length →
      List.isPrefixOf ytShortMark (List.drop i (p ++ ytShortMark ++ id ++ q)) = false)
    (hnore : ∀ i, i < (id ++ q).length →
      List.isPrefixOf ytShortMark (List.drop i (id ++ q)) = false)
    (hid : '?' ∉ id)
    (hq : q = [] ∨ ∃ q2, q = '?' :: q2) :
    getVideoID (some (p ++ ytShortMark ++ id ++ q)) = .ok (some id) := by
  have hm : ytShortMark ≠ [] := by decide
  have hassoc : p ++ ytShortMark ++ id ++ q = p ++ (ytShortMark ++ (id ++ q)) := by
    simp [List.append_assoc]
  rw [hassoc] at hfirst
  rw [hassoc]
  have hne : p ++ (ytShortMark ++ (id ++ q)) ≠ [] := by
    intro hcontra
    obtain ⟨h1, h2⟩ := List.append_eq_nil.mp hcontra
    obtain ⟨h3, h4⟩ := List.append_eq_nil.mp h2
    exact hm h3
  have hcont : containsL ytShortMark (p ++ (ytShortMark ++ (id ++ q))) = true :=
    containsL_of_append _ _ _ hm
  have hs1 : splitOnL ytShortMark (p ++ (ytShortMark ++ (id ++ q)))
      = p :: splitOnL ytShortMark (id ++ q) :=
    splitOnL_boundary _ _ _ hm hfirst
  have hs2 : splitOnL ytShortMark (id ++ q) = [id ++ q] :=
    splitOnL_no_occ _ _ hnore
  have hqm : qMark = ['?'] := rfl
  simp only [getVideoID]
  rw [if_neg hne, hcont, if_pos rfl, hs1, hs2]
  simp only [List.getD_cons_succ, List.getD_cons_zero]
  rcases hq with rfl | ⟨q2, rfl⟩
  · have hq3 : ∀ i, i < id.length →
        List.isPrefixOf qMark (List.drop i id) = false := by
      intro i hi
      have := singleton_no_occ_within '?' id [] hid i hi
      rw [List.append_nil] at this
      rw [hqm]
      exact this
    rw [List.append_nil, splitOnL_no_occ _ _ hq3]
    simp
  · have hcons : ('?' :: q2 : List Char) = ['?'] ++ q2 := rfl
    have hs3 : splitOnL ['?'] (id ++ (['?'] ++ q2)) = id :: splitOnL ['?'] q2 :=
      splitOnL_boundary ['?'] id q2 (by decide)
        (singleton_no_occ_within '?' id (['?'] ++ q2) hid)
    rw [hqm, hcons, hs3]
    simp

/-- Claim C5 witness: the spec's own example shape,
`https://youtu.be/ABC123?t=1s` parses to `ABC123`. -/
theorem getVideoID_short_link_witness :
    getVideoID (some ("https://".data ++ ytShortMark ++ "ABC123".data ++ "?t=1s".data))
      = .ok (some "ABC123".data) :=
  getVideoID_short_link "https://".data "ABC123".data "?t=1s".data
    (by decide) (by decide) (by decide) (Or.inr ⟨"t=1s".data, rfl⟩)

/-- Claim C6: for every URL string that does not contain the short-link
marker but contains `v=`, parse returns exactly the substring between the
first `v=` and the next `&` (or the end of the string).  The URL is
`p ++ "v=" ++ id ++ q` where the shown `v=` occurrence is the first
(`hfirst`) and `v=` does not reoccur after it (`hnore`), the identifier
contains no `&`, and `q` is either absent or starts with `&`. -/
theorem getVideoID_v_param (p id q : List Char)
    (hshort : containsL ytShortMark (p ++ vParamMark ++ id ++ q) = false)
    (hfirst : ∀ i, i < p.length →
      List.isPrefixOf vParamMark (List.drop i (p ++ vParamMark ++ id ++ q)) = false)
    (hnore : ∀ i, i < (id ++ q).length →
      List.isPrefixOf vParamMark (List.drop i (id ++ q)) = false)
    (hid : '&' ∉ id)
    (hq : q = [] ∨ ∃ q2, q = '&' :: q2) :
    getVideoID (some (p ++ vParamMark ++ id ++ q)) = .ok (some id) := by
  have hm : vParamMark ≠ [] := by decide
  have hassoc : p ++ vParamMark ++ id ++ q = p ++ (vParamMark ++ (id ++ q)) := by
    simp [List.append_assoc]
  rw [hassoc] at hshort hfirst
  rw [hassoc]
  have hne : p ++ (vParamMark ++ (id ++ q)) ≠ [] := by
    intro hcontra
    obtain ⟨h1, h2⟩ := List.append_eq_nil.mp hcontra
    obtain ⟨h3, h4⟩ := List.append_eq_nil.mp h2
    exact hm h3
  have hcont : containsL vParamMark (p ++ (vParamMark ++ (id ++ q))) = true :=
    containsL_of_append _ _ _ hm
  have hs1 : splitOnL vParamMark (p ++ (vParamMark ++ (id ++ q)))
      = p :: splitOnL vParamMark (id ++ q) :=
    splitOnL_boundary _ _ _ hm hfirst
  have hs2 : splitOnL vParamMark (id ++ q) = [id ++ q] :=
    splitOnL_no_occ _ _ hnore
  have ham : ampMark = ['&'] := rfl
  simp only [getVideoID]
  rw [if_neg hne, hshort, if_neg (by simp), hcont, if_pos rfl, hs1, hs2]
  simp only [List.getD_cons_succ, List.getD_cons_zero]
  rcases hq with rfl | ⟨q2, rfl⟩
  · have hq3 : ∀ i, i < id.length →
        List.isPrefixOf ampMark (List.drop i id) = false := by
      intro i hi
      have := singleton_no_occ_within '&' id [] hid i hi
      rw [List.append_nil] at this
      rw [ham]
      exact this
    rw [List.append_nil, splitOnL_no_occ _ _ hq3]
    simp
  · have hcons : ('&' :: q2 : List Char) = ['&'] ++ q2 := rfl
    have hs3 : splitOnL ['&'] (id ++ (['&'] ++ q2)) = id :: splitOnL ['&'] q2 :=
      splitOnL_boundary ['&'] id q2 (by decide)
        (singleton_no_occ_within '&' id (['&'] ++ q2) hid)
    rw [ham, hcons, hs3]
    simp

/-- Claim C6 witness: `https://www.youtube.com/watch?v=dQw4w9WgXcQ&t=1`
parses to `dQw4w9WgXcQ`. -/
theorem getVideoID_v_param_witness :
    getVideoID (some ("https://www.youtube.com/watch?".data ++ vParamMark
        ++ "dQw4w9WgXcQ".data ++ "&t=1".data))
      = .ok (some "dQw4w9WgXcQ".data) :=
  getVideoID_v_param "https://www.youtube.com/watch?".data "dQw4w9WgXcQ".data "&t=1".data
    (by decide) (by decide) (by decide) (by decide) (Or.inr ⟨"t=1".data, rfl⟩)

/-- Claim C7: a non-empty URL containing neither marker makes `getVideoID`
raise `ValueError("Invalid YouTube URL format")`; a missing (`None`) or
empty URL yields an absent identifier without failing. -/
theorem getVideoID_invalid_or_empty :
    (∀ u : List Char, u ≠ [] → containsL ytShortMark u = false →
        containsL vParamMark u = false → getVideoID (some u) = .invalidURL)
  ∧ getVideoID none = .ok none
  ∧ getVideoID (some []) = .ok none := by
  refine ⟨?_, rfl, by simp [getVideoID]⟩
  intro u hne h1 h2
  simp only [getVideoID]
  rw [if_neg hne, h1, h2]
  simp

/-- Claim C7 witness: the spec's end-to-end scenario 2, URL `not-a-url`,
fails with the invalid-format error; empty and missing URLs do not. -/
theorem getVideoID_invalid_or_empty_witness :
    getVideoID (some "not-a-url".data) = .invalidURL :=
  getVideoID_invalid_or_empty.1 "not-a-url".data (by decide) (by decide) (by decide)

/-! ### Claims about the transcript fetcher -/

/-- Folding the source's `full_transcript += entry + "\n"` loop from any
accumulator appends one newline-terminated copy of each fragment. -/
theorem foldl_newline (l : List String) (init : String) :
    l.foldl (fun full_transcript entry => full_transcript ++ entry ++ "\n") init
      = init ++ transcriptSpec l := by
  induction l generalizing init with
  | nil => simp [transcriptSpec]
  | cons t ts ih =>
    simp only [List.foldl_cons, transcriptSpec, ih]
    simp [String.append_assoc]

/-- Claim C3: for every ordered fragment list returned by the provider,
`get_transcription` produces each fragment's text followed by a single
newline, in provider order; `["Hello ", "world"]` yields exactly
`"Hello \nworld\n"` and zero fragments yield the empty string. -/
theorem get_transcription_concat :
    (∀ entries : List String,
        get_transcription (.ok entries) = .ok (transcriptSpec entries))
  ∧ get_transcription (.ok ["Hello ", "world"]) = .ok "Hello \nworld\n"
  ∧ get_transcription (.ok []) = .ok "" := by
  refine ⟨?_, rfl, rfl⟩
  intro entries
  have h := foldl_newline entries ""
  rw [String.empty_append] at h
  simp only [get_transcription]
  rw [h]

/-! ### Claims about the title resolver -/

/-- Claim C4: the title resolver never fails outward — it is a total
function with no exception case; it returns the parsed title exactly on an
HTTP 200 response with a parsable body carrying a title, and returns the
input video identifier unchanged on a network error, a non-200 status, a
malformed body, or a missing title field. -/
theorem get_video_title_fallback :
    (∀ vid t, (get_video_title vid (.response 200 (.withTitle t))).title = t)
  ∧ (∀ vid e, (get_video_title vid (.netError e)).title = vid)
  ∧ (∀ vid s b, s ≠ 200 → (get_video_title vid (.response s b)).title = vid)
  ∧ (∀ vid, (get_video_title vid (.response 200 .malformed)).title = vid)
  ∧ (∀ vid, (get_video_title vid (.response 200 .missingTitle)).title = vid) := by
  refine ⟨fun vid t => rfl, fun vid e => rfl, ?_, fun vid => rfl, fun vid => rfl⟩
  intro vid s b hs
  simp [get_video_title, hs]

/-- Claim C4 witness: a 404 response falls back to the identifier. -/
theorem get_video_title_fallback_witness :
    (get_video_title "abc123" (.response 404 (.withTitle "X"))).title = "abc123" :=
  get_video_title_fallback.2.2.1 "abc123" 404 (.withTitle "X") (by decide)

/-! ### Claims about the prompt builder -/

/-- Claim C2 counterexample: supplying the empty string as the override
does not return it verbatim — because the override is tested for Python
truthiness, the builder falls back to the default tone-derived prompt,
which is not the empty string. -/
theorem build_system_prompt_empty_override_cex :
    build_system_prompt "Use a professional and formal tone." (some "") ≠ "" := by
  decide

/-- Claim C2 (amended): the prompt builder is deterministic — for every
tone, building with that tone and no override yields the default prompt
for that tone; and every non-empty override string is returned verbatim
regardless of tone. -/
theorem build_system_prompt_deterministic :
    (∀ tone : String, build_system_prompt tone none = create_default_prompt tone)
  ∧ (∀ tone cp : String, cp ≠ "" → build_system_prompt tone (some cp) = cp) := by
  refine ⟨fun tone => rfl, ?_⟩
  intro tone cp hcp
  simp [build_system_prompt, hcp]

/-- Claim C2 witness: a concrete non-empty override is returned verbatim. -/
theorem build_system_prompt_deterministic_witness :
    build_system_prompt "Use a professional and formal tone." (some "Summarize briefly.")
      = "Summarize briefly." :=
  build_system_prompt_deterministic.2 "Use a professional and formal tone."
    "Summarize briefly." (by decide)

/-- Claim C10: an empty-string override (as opposed to an absent one)
falls back to the default tone-derived prompt — the same result as no
override at all — and the override-verbatim behaviour holds exactly for
non-empty override strings, because line 93 tests truthiness, not
presence. -/
theorem build_system_prompt_truthiness :
    (∀ tone : String, build_system_prompt tone (some "") = build_system_prompt tone none)
  ∧ (∀ tone : String, build_system_prompt tone (some "") = create_default_prompt tone)
  ∧ (∀ tone cp : String, cp ≠ "" → build_system_prompt tone (some cp) = cp) := by
  refine ⟨fun tone => rfl, fun tone => rfl, ?_⟩
  intro tone cp hcp
  simp [build_system_prompt, hcp]

/-- Claim C10 witness: a concrete non-empty override is used verbatim
while the empty override at the same tone is not. -/
theorem build_system_prompt_truthiness_witness :
    build_system_prompt "Be humorous and entertaining in your summary." (some "X") = "X" :=
  build_system_prompt_truthiness.2.2 "Be humorous and entertaining in your summary."
    "X" (by decide)

/-! ### Claims about the summarizer client -/

/-- Claim C8: the summarizer sends exactly one two-message exchange — a
system message carrying the built prompt followed by a user message
carrying `"Transcript: "` concatenated with the unmodified transcript.
Formally, `askOllama` consults its endpoint only at that request: any two
endpoints agreeing on it produce identical results. -/
theorem askOllama_request_messages (t m tone : String) (cp : Option String)
    (chat1 chat2 : String → List ChatMessage → Except String RespVal)
    (h : chat1 m [{ role := "system", content := build_system_prompt tone cp },
                  { role := "user", content := "Transcript: " ++ t }]
       = chat2 m [{ role := "system", content := build_system_prompt tone cp },
                  { role := "user", content := "Transcript: " ++ t }]) :
    askOllama t m tone cp chat1 = askOllama t m tone cp chat2 := by
  simp only [askOllama]
  rw [h]

/-- Claim C8 witness: two concrete distinct endpoints agreeing at the
two-message request give the same summarizer result. -/
theorem askOllama_request_messages_witness :
    askOllama "some transcript" "llama3" "Use a professional and formal tone." none
        (fun _ _ => Except.ok (RespVal.withMessage (some "S")))
      = askOllama "some transcript" "llama3" "Use a professional and formal tone." none
        (fun _ msgs => if msgs.length = 2
          then Except.ok (RespVal.withMessage (some "S"))
          else Except.error "unreachable") :=
  askOllama_request_messages "some transcript" "llama3"
    "Use a professional and formal tone." none _ _ (by rfl)

/-- Claim C9: an empty or absent endpoint response (Python-falsy value) is
treated as the failure `Exception("Empty response from AI model")`, caught
and surfaced via `st.error` with the function returning `None` — never as
a success — and no successful result ever carries a falsy response. -/
theorem askOllama_empty_response (t m tone : String) (cp : Option String) :
    (askOllama t m tone cp (fun _ _ => Except.ok RespVal.null)
        = .failure ("Error generating summary: " ++ "Empty response from AI model"))
  ∧ (askOllama t m tone cp (fun _ _ => Except.ok RespVal.emptyDict)
        = .failure ("Error generating summary: " ++ "Empty response from AI model"))
  ∧ (∀ chat r, askOllama t m tone cp chat = .success r → respTruthy r = true) := by
  refine ⟨rfl, rfl, ?_⟩
  intro chat r h
  simp only [askOllama] at h
  revert h
  cases chat m [{ role := "system", content := build_system_prompt tone cp },
                { role := "user", content := "Transcript: " ++ t }] with
  | error e => intro h; cases h
  | ok resp =>
    intro h
    dsimp only at h
    by_cases ht : respTruthy resp = true
    · rw [if_pos ht] at h
      cases h
      exact ht
    · rw [if_neg ht] at h
      cases h

/-- Claim C9 witness: a truthy concrete response is accepted, and by the
theorem every accepted response is truthy. -/
theorem askOllama_empty_response_witness :
    respTruthy (RespVal.withMessage (some "S")) = true :=
  (askOllama_empty_response "t" "m" "tone" none).2.2
    (fun _ _ => Except.ok (RespVal.withMessage (some "S")))
    (RespVal.withMessage (some "S")) (by rfl)

/-! ### Claims about the pipeline's summary stage -/

/-- Claim C1 counterexample: at a concrete empty transcript with a valid
model name, tone, prompt and a live endpoint, the summary stage of `main`
yields `none` — the summarizer invocation is pre-emptively skipped by the
`if transcript:` guard, so no chat call is attempted. -/
theorem main_summary_stage_empty_cex :
    main_summary_stage "" "llama3" "Use a professional and formal tone." (some "prompt")
      (fun _ _ => Except.ok (RespVal.withMessage (some "S"))) = none := rfl

/-- Claim C1 (amended): `askOllama` itself attempts the chat call for
every transcript including the empty string, but the pipeline
short-circuits: `main` invokes the summarizer exactly when the transcript
is non-empty, so an empty transcript never reaches the model endpoint. -/
theorem main_summary_gate :
    (∀ m tone : String, ∀ cp chat, main_summary_stage "" m tone cp chat = none)
  ∧ (∀ t m tone : String, ∀ cp chat, t ≠ "" →
      main_summary_stage t m tone cp chat = some (askOllama t m tone cp chat))
  ∧ (∀ m tone : String, ∀ cp c,
      askOllama "" m tone cp (fun _ _ => Except.ok (RespVal.withMessage (some c)))
        = .success (RespVal.withMessage (some c))) := by
  refine ⟨fun m tone cp chat => rfl, ?_, fun m tone cp c => rfl⟩
  intro t m tone cp chat ht
  simp [main_summary_stage, ht]

/-- Claim C1 witness: a non-empty transcript reaches the summarizer. -/
theorem main_summary_gate_witness :
    main_summary_stage "Hello \nworld\n" "llama3" "Use a professional and formal tone." none
        (fun _ _ => Except.ok (RespVal.withMessage (some "S")))
      = some (askOllama "Hello \nworld\n" "llama3" "Use a professional and formal tone." none
        (fun _ _ => Except.ok (RespVal.withMessage (some "S")))) :=
  main_summary_gate.2.1 "Hello \nworld\n" "llama3" "Use a professional and formal tone."
    none (fun _ _ => Except.ok (RespVal.withMessage (some "S"))) (by decide)

end YTSumm
